import Mathlib

/-!
# Haptic_DRV2605: register-access contract

A shallow embedding of `src/Haptic_DRV2605.h` (constants, enumerations, the
script entry type and the default device state) together with the register
access operations of class `Haptic_DRV2605`.  The header only declares the
member functions; their bodies and the register map
(`Haptic_DRV2605_registers.h`) are not part of the sources at hand, so each
operation below is modelled from the specification and says so in its doc
comment.

Bytes (`uint8_t`) are natural numbers reduced modulo `256` at the point where
the C code narrows them; `int` results are integers.
-/

/-! ## Constants of the header -/

/-- Source: `#define SUCCESS 0`. -/
def SUCCESS : Int := 0

/-- Source: `#define FAIL -1`. -/
def FAIL : Int := -1

/-- Source: `#define ACTUATOR_SEQ_ID 7`. -/
def ACTUATOR_SEQ_ID : Int := 7

/-- Source: `#define ACTUATOR_SEQ_LOOP 3`. -/
def ACTUATOR_SEQ_LOOP : Int := 3

/-- Source: `#define ACTUATOR_SEQ_ID_MAX 15`. -/
def ACTUATOR_SEQ_ID_MAX : Int := 15

/-- Source: `#define ACTUATOR_SEQ_LOOP_MAX 15`. -/
def ACTUATOR_SEQ_LOOP_MAX : Int := 15

/-- Source: `#define ACTUATOR_GPI_0_SEQ_ID 7`. -/
def ACTUATOR_GPI_0_SEQ_ID : Int := 7

/-- Source: `#define ACTUATOR_SCRIPT_DELAY 0xFE`. -/
def ACTUATOR_SCRIPT_DELAY : Nat := 0xFE

/-- Source: `#define ACTUATOR_SCRIPT_END 0xFF`. -/
def ACTUATOR_SCRIPT_END : Nat := 0xFF

/-- Source: `#define ACTUATOR_SCRIPT_MAX 16`. -/
def ACTUATOR_SCRIPT_MAX : Nat := 16

/-- Source: `#define ACTUATOR_BEMF_SENS_EN 1`. -/
def ACTUATOR_BEMF_SENS_EN : Nat := 1

/-- Source: `#define ACTUATOR_FREQ_TRACK_EN 1`. -/
def ACTUATOR_FREQ_TRACK_EN : Nat := 1

/-- Source: `#define ACTUATOR_ACC_EN 1`. -/
def ACTUATOR_ACC_EN : Nat := 1

/-- Source: `#define ACTUATOR_RAPID_STOP_EN 1`. -/
def ACTUATOR_RAPID_STOP_EN : Nat := 1

/-- Source: `#define ACTUATOR_AMP_PID_EN 0`. -/
def ACTUATOR_AMP_PID_EN : Nat := 0

/-- Modelled from the spec: the register map header is not among the sources;
the specification gives the chip's register address space as `0–0x23`.  This
is the largest address of that range. -/
def REG_ADDR_MAX : Nat := 0x23

/-! ## Types of the header -/

/-- Source `struct scr_type`: one script entry, a register address and a value
(both `uint8_t`). -/
structure scr_type where
  reg : Nat
  val : Nat
deriving DecidableEq, Repr

/-- Source `enum haptic_dev_t`, all six enumerators in source order. -/
inductive haptic_dev_t where
  | LRA
  | ERM
  | ERM_COIN
  | ERM_DMA
  | LRA_DMA
  | HAPTIC_DEV_MAX
deriving DecidableEq, Repr, Fintype

/-- The integer value of each `haptic_dev_t` enumerator.  The first five are
written in the source; `HAPTIC_DEV_MAX` has no initialiser and so is one more
than the enumerator before it. -/
def haptic_dev_t.val : haptic_dev_t → Nat
  | .LRA => 0
  | .ERM => 1
  | .ERM_COIN => 2
  | .ERM_DMA => 3
  | .LRA_DMA => 4
  | .HAPTIC_DEV_MAX => 4 + 1

/-- Source `enum op_mode`, all ten enumerators in source order. -/
inductive op_mode where
  | INACTIVE_MODE
  | STREAM_MODE
  | PWM_MODE
  | REGISTER_MODE
  | GPIO_MODE
  | AUDIO_MODE
  | DIAG_MODE
  | CALIBRATE_MODE
  | SLEEP_MODE
  | HAPTIC_MODE_MAX
deriving DecidableEq, Repr, Fintype

/-- The integer value of each `op_mode` enumerator.  The first nine are written
in the source; `HAPTIC_MODE_MAX` has no initialiser and so is one more than
`SLEEP_MODE`. -/
def op_mode.val : op_mode → Nat
  | .INACTIVE_MODE => 0
  | .STREAM_MODE => 1
  | .PWM_MODE => 2
  | .REGISTER_MODE => 3
  | .GPIO_MODE => 4
  | .AUDIO_MODE => 5
  | .DIAG_MODE => 6
  | .CALIBRATE_MODE => 7
  | .SLEEP_MODE => 8
  | .HAPTIC_MODE_MAX => 8 + 1

/-- The operating modes proper: the enumerators listed before the
`HAPTIC_MODE_MAX` count, in source order. -/
def op_mode.modes : List op_mode :=
  [.INACTIVE_MODE, .STREAM_MODE, .PWM_MODE, .REGISTER_MODE, .GPIO_MODE,
   .AUDIO_MODE, .DIAG_MODE, .CALIBRATE_MODE, .SLEEP_MODE]

/-- The actuator types proper: the enumerators listed before the
`HAPTIC_DEV_MAX` count, in source order. -/
def haptic_dev_t.types : List haptic_dev_t :=
  [.LRA, .ERM, .ERM_COIN, .ERM_DMA, .LRA_DMA]

/-- The enumerators whose name marks them as eccentric-rotating-mass
actuators. -/
def haptic_dev_t.isERM : haptic_dev_t → Bool
  | .ERM => true
  | .ERM_COIN => true
  | .ERM_DMA => true
  | _ => false

/-- Source: `#define ACTUATOR_HAPTIC_DEV ERM`. -/
def ACTUATOR_HAPTIC_DEV : haptic_dev_t := .ERM

/-- Source: `#define ACTUATOR_OP_MODE REGISTER_MODE`. -/
def ACTUATOR_OP_MODE : op_mode := .REGISTER_MODE

/-- Source `struct haptic_driver` with its default member initialisers.  The `int`
members are integers, the `uint8_t` members bytes. -/
structure haptic_driver where
  dev_effect : Int := 0
  dev_effects_max : Int := 0
  dev_script : Int := 0
  dev_scripts_max : Int := 0
  dev_state : Nat := 0
  dev_type : Nat := ACTUATOR_HAPTIC_DEV.val % 256
  op_mode : Nat := ACTUATOR_OP_MODE.val % 256
  bemf_sense_en : Nat := ACTUATOR_BEMF_SENS_EN % 256
  freq_track_en : Nat := ACTUATOR_FREQ_TRACK_EN % 256
  acc_en : Nat := ACTUATOR_ACC_EN % 256
  rapid_stop_en : Nat := ACTUATOR_RAPID_STOP_EN % 256
  amp_pid_en : Nat := ACTUATOR_AMP_PID_EN % 256
deriving Repr

/-- The default-initialised device state, `struct haptic_driver haptic;`. -/
def haptic_driver.default : haptic_driver := {}

/-! ## The two-wire bus -/

/-- What the library asks of the bus, in the order asked: a register read, a
register write (each with whether the chip acknowledged it) or a pause. -/
inductive Event where
  | read (reg : Nat) (ok : Bool)
  | write (reg val : Nat) (ok : Bool)
  | pause
deriving DecidableEq, Repr

/-- Modelled from the spec: the bus and the chip behind it are an external
collaborator (`Wire.h`), described by the specification as a byte-addressed
register file on which a transaction either completes or does not.
`regs` is the register file, `acks` the outcome of the transactions still to
come (once the list is used up every transaction completes) and `trace` what
has been asked of the bus so far, oldest first. -/
structure Bus where
  regs : Nat → Nat
  acks : List Bool
  trace : List Event

namespace Bus

/-- Whether the next transaction will be acknowledged. -/
def ack (b : Bus) : Bool := b.acks.headD true

/-- One read transaction: the byte at `reg`, or nothing when the transaction
does not complete. -/
def busRead (b : Bus) (reg : Nat) : Option Nat × Bus :=
  if b.ack then
    (some (b.regs reg % 256),
      { regs := b.regs, acks := b.acks.tail, trace := b.trace ++ [Event.read reg true] })
  else
    (none, { regs := b.regs, acks := b.acks.tail, trace := b.trace ++ [Event.read reg false] })

/-- One write transaction: the register takes the value when the transaction
completes and is left alone when it does not. -/
def busWrite (b : Bus) (reg val : Nat) : Bool × Bus :=
  if b.ack then
    (true,
      { regs := Function.update b.regs reg val, acks := b.acks.tail,
        trace := b.trace ++ [Event.write reg val true] })
  else
    (false,
      { regs := b.regs, acks := b.acks.tail, trace := b.trace ++ [Event.write reg val false] })

/-- A fixed pause: nothing is asked of the chip. -/
def delay (b : Bus) : Bus :=
  { regs := b.regs, acks := b.acks, trace := b.trace ++ [Event.pause] }

/-- The next `n` transactions all complete. -/
def acksNext (b : Bus) (n : Nat) : Prop := ∀ a ∈ b.acks.take n, a = true

instance (b : Bus) (n : Nat) : Decidable (b.acksNext n) := by
  unfold acksNext; infer_instance

/-- A chip whose registers all hold the byte `v`, with the given outcomes for
the transactions to come and nothing asked of it yet. -/
def seeded (v : Nat) (acks : List Bool) : Bus :=
  { regs := fun _ => v, acks := acks, trace := [] }

end Bus

/-- The write transactions of a trace, in order: address, value and whether
the write was acknowledged. -/
def Event.asWrite : Event → Option (Nat × Nat × Bool)
  | .write reg val ok => some (reg, val, ok)
  | _ => none

/-- The write transactions recorded in a trace, oldest first. -/
def writesOf (t : List Event) : List (Nat × Nat × Bool) := t.filterMap Event.asWrite

/-! ## Operations of class `Haptic_DRV2605` -/

namespace Haptic_DRV2605

/-- Modelled from the spec: the body of `int readReg(uint8_t reg)` is not
among the sources.  "read(address) → byte value or failure if the bus
transaction does not complete"; a single failed transaction is reported at
once. -/
def readReg (b : Bus) (reg : Nat) : Int × Bus :=
  match b.busRead (reg % 256) with
  | (some v, b1) => ((v : Int), b1)
  | (none, b1) => (FAIL, b1)

/-- Modelled from the spec: the body of
`int writeReg(uint8_t reg, uint8_t val)` is not among the sources.
"write(address, value) → success/failure, same failure semantics as read". -/
def writeReg (b : Bus) (reg val : Nat) : Int × Bus :=
  match b.busWrite (reg % 256) (val % 256) with
  | (true, b1) => (SUCCESS, b1)
  | (false, b1) => (FAIL, b1)

/-- The byte a masked write puts back: the old byte with the masked bits
cleared, with `bits & mask` or-ed in. -/
def maskedByte (old mask bits : Nat) : Nat :=
  ((old &&& (0xFF ^^^ (mask % 256))) ||| ((bits % 256) &&& (mask % 256))) % 256

/-- Modelled from the spec: the body of
`int writeRegBits(uint8_t reg, uint8_t mask, uint8_t bits)` is not among the
sources.  "read-modify-write — read current byte, clear masked bits, OR in
`value & mask`, write back"; a read that fails is reported as failure. -/
def writeRegBits (b : Bus) (reg mask bits : Nat) : Int × Bus :=
  match readReg b reg with
  | (r, b1) =>
    if r = FAIL then (FAIL, b1)
    else writeReg b1 reg (maskedByte r.toNat mask bits)

/-- Modelled from the spec: the body of
`int writeRegScript(const struct scr_type script[])` is not among the sources.
"iterates the script's (address, value) pairs, writing each in order; a
`delay` sentinel pauses execution for a fixed interval before continuing; an
`end` sentinel stops processing.  First write failure aborts the remainder of
the script and returns failure".  A script is read entry by entry; running off
an array that has no end sentinel has no defined result (`none`). -/
def writeRegScript : Bus → List scr_type → Option (Int × Bus)
  | _, [] => none
  | b, e :: rest =>
    if e.reg = ACTUATOR_SCRIPT_END then some (SUCCESS, b)
    else if e.reg = ACTUATOR_SCRIPT_DELAY then writeRegScript b.delay rest
    else
      match writeReg b e.reg e.val with
      | (r, b1) => if r = FAIL then some (FAIL, b1) else writeRegScript b1 rest

/-- Modelled from the spec: the body of
`int setWaveform(uint8_t slot, uint8_t wave)` and the register map are not
among the sources.  "writes an effect index into one of the sequencer slots;
rejects slot indices beyond the device's configured slot count".  The address
of the first slot register (`seqBase`) and the slot count (`slotCount`) come
from the absent register map and are parameters. -/
def setWaveform (seqBase slotCount : Nat) (b : Bus) (slot wave : Nat) : Int × Bus :=
  if slotCount ≤ slot % 256 then (FAIL, b)
  else writeReg b (seqBase + slot % 256) wave

/-- Modelled from the spec: reading back one sequencer slot, "a read of that
slot", is a register read at the slot's address. -/
def getWaveform (seqBase : Nat) (b : Bus) (slot : Nat) : Int × Bus :=
  readReg b (seqBase + slot % 256)

/-- Modelled from the spec: the body of `int setMode(enum op_mode mode)` and
the register map are not among the sources.  "writes the operating-mode
field; ... Out-of-range values are rejected before any bus transaction."  The
field is a masked part of the mode register; its address (`modeReg`) and mask
(`modeMask`) come from the absent register map and are parameters. -/
def setMode (modeReg modeMask : Nat) (b : Bus) (mode : Nat) : Int × Bus :=
  if op_mode.HAPTIC_MODE_MAX.val ≤ mode then (FAIL, b)
  else writeRegBits b modeReg modeMask mode

/-- Modelled from the spec: "a register read of the mode field" reads the
mode register and keeps the bits of the field. -/
def getMode (modeReg modeMask : Nat) (b : Bus) : Int × Bus :=
  match readReg b modeReg with
  | (r, b1) => if r = FAIL then (FAIL, b1) else (((r.toNat &&& (modeMask % 256) : Nat) : Int), b1)

end Haptic_DRV2605

/-- The entries of a script that stand before its first end sentinel. -/
def scriptBody (s : List scr_type) : List scr_type :=
  s.takeWhile (fun e => e.reg ≠ ACTUATOR_SCRIPT_END)

/-- The register writes a script lists: its entries before the end sentinel
that are not delay sentinels, as the (address, value) bytes put on the bus. -/
def scriptWrites (s : List scr_type) : List (Nat × Nat) :=
  ((scriptBody s).filter (fun e => e.reg ≠ ACTUATOR_SCRIPT_DELAY)).map
    (fun e => (e.reg % 256, e.val % 256))

/-- The number of delay sentinels a script lists before its end sentinel. -/
def scriptDelays (s : List scr_type) : Nat :=
  ((scriptBody s).filter (fun e => e.reg = ACTUATOR_SCRIPT_DELAY)).length

/-- The number of pauses recorded in a trace. -/
def pausesOf (t : List Event) : Nat := t.count Event.pause

/-- The register file after the given writes have been applied in order. -/
def applyWrites (regs : Nat → Nat) (ws : List (Nat × Nat)) : Nat → Nat :=
  ws.foldl (fun f w => Function.update f w.1 w.2) regs

/-- A small well-formed script: a write, a delay, a second write, the end
sentinel, and an entry after the end that must never be applied. -/
def sampleScript : List scr_type :=
  [⟨0x16, 0x53⟩, ⟨ACTUATOR_SCRIPT_DELAY, 0x0A⟩, ⟨0x17, 0xA4⟩, ⟨ACTUATOR_SCRIPT_END, 0x00⟩,
   ⟨0x1A, 0xB6⟩]

/-! ## Auxiliary facts -/

theorem byte_testBit_mod (x i : Nat) (hi : i < 8) : (x % 256).testBit i = x.testBit i := by
  have : (256 : Nat) = 2 ^ 8 := by norm_num
  rw [this, Nat.testBit_mod_two_pow]
  simp [hi]

theorem maskedByte_testBit (old mask bits i : Nat) (hi : i < 8) :
    (Haptic_DRV2605.maskedByte old mask bits).testBit i =
      if mask.testBit i then bits.testBit i else old.testBit i := by
  unfold Haptic_DRV2605.maskedByte
  rw [byte_testBit_mod _ _ hi]
  have h255 : (0xFF : Nat).testBit i = true := by
    interval_cases i <;> decide
  simp only [Nat.testBit_or, Nat.testBit_and, Nat.testBit_xor, byte_testBit_mod _ _ hi, h255]
  cases mask.testBit i <;> cases bits.testBit i <;> cases old.testBit i <;> rfl

theorem maskedByte_lt (old mask bits : Nat) : Haptic_DRV2605.maskedByte old mask bits < 256 := by
  unfold Haptic_DRV2605.maskedByte
  exact Nat.mod_lt _ (by norm_num)

theorem maskedByte_eq (old mask bits : Nat) (hm : mask < 256) (hb : bits < 256) :
    Haptic_DRV2605.maskedByte old mask bits = (old &&& (0xFF ^^^ mask)) ||| (bits &&& mask) := by
  unfold Haptic_DRV2605.maskedByte
  rw [Nat.mod_eq_of_lt hm, Nat.mod_eq_of_lt hb]
  apply Nat.mod_eq_of_lt
  have h1 : old &&& (0xFF ^^^ mask) < 2 ^ 8 := Nat.and_lt_two_pow _ (Nat.xor_lt_two_pow (by norm_num) (by simpa using hm))
  have h2 : bits &&& mask < 2 ^ 8 := Nat.and_lt_two_pow _ (by simpa using hm)
  have := Nat.or_lt_two_pow h1 h2
  simpa using this

theorem readReg_ok (b : Bus) (reg : Nat) (h : b.ack = true) :
    Haptic_DRV2605.readReg b reg =
      (((b.regs (reg % 256) % 256 : Nat) : Int),
        { regs := b.regs, acks := b.acks.tail,
          trace := b.trace ++ [Event.read (reg % 256) true] }) := by
  simp [Haptic_DRV2605.readReg, Bus.busRead, h]

theorem readReg_nack (b : Bus) (reg : Nat) (h : b.ack = false) :
    Haptic_DRV2605.readReg b reg =
      (FAIL, { regs := b.regs, acks := b.acks.tail,
               trace := b.trace ++ [Event.read (reg % 256) false] }) := by
  simp [Haptic_DRV2605.readReg, Bus.busRead, h]

theorem writeReg_ok (b : Bus) (reg val : Nat) (h : b.ack = true) :
    Haptic_DRV2605.writeReg b reg val =
      (SUCCESS,
        { regs := Function.update b.regs (reg % 256) (val % 256), acks := b.acks.tail,
          trace := b.trace ++ [Event.write (reg % 256) (val % 256) true] }) := by
  simp [Haptic_DRV2605.writeReg, Bus.busWrite, h]

theorem writeReg_nack (b : Bus) (reg val : Nat) (h : b.ack = false) :
    Haptic_DRV2605.writeReg b reg val =
      (FAIL, { regs := b.regs, acks := b.acks.tail,
               trace := b.trace ++ [Event.write (reg % 256) (val % 256) false] }) := by
  simp [Haptic_DRV2605.writeReg, Bus.busWrite, h]

theorem natCast_ne_FAIL (n : Nat) : (n : Int) ≠ FAIL := by
  unfold FAIL; omega

theorem SUCCESS_ne_FAIL : SUCCESS ≠ FAIL := by decide

theorem acksNext_two (b : Bus) (h : b.acksNext 2) :
    b.ack = true ∧ b.acks.tail.headD true = true := by
  unfold Bus.acksNext at h
  unfold Bus.ack
  rcases hb : b.acks with _ | ⟨a1, _ | ⟨a2, r⟩⟩ <;> simp_all

theorem writeRegBits_ok (b : Bus) (reg mask bits : Nat) (h : b.acksNext 2) :
    Haptic_DRV2605.writeRegBits b reg mask bits =
      (SUCCESS,
        { regs := Function.update b.regs (reg % 256)
            (Haptic_DRV2605.maskedByte (b.regs (reg % 256) % 256) mask bits),
          acks := b.acks.tail.tail,
          trace := b.trace ++ [Event.read (reg % 256) true,
            Event.write (reg % 256)
              (Haptic_DRV2605.maskedByte (b.regs (reg % 256) % 256) mask bits) true] }) := by
  obtain ⟨h1, h2⟩ := acksNext_two b h
  unfold Haptic_DRV2605.writeRegBits
  rw [readReg_ok b reg h1]
  simp only [natCast_ne_FAIL, if_false, Int.toNat_ofNat]
  rw [writeReg_ok _ _ _ (by simpa [Bus.ack] using h2)]
  simp [Nat.mod_eq_of_lt (maskedByte_lt _ _ _)]

theorem delay_ne_end : ACTUATOR_SCRIPT_DELAY ≠ ACTUATOR_SCRIPT_END := by decide

theorem scriptWrites_end (e : scr_type) (r : List scr_type) (h : e.reg = ACTUATOR_SCRIPT_END) :
    scriptWrites (e :: r) = [] ∧ scriptDelays (e :: r) = 0 := by
  simp [scriptWrites, scriptDelays, scriptBody, List.takeWhile, h]

theorem scriptWrites_delay (e : scr_type) (r : List scr_type)
    (h : e.reg = ACTUATOR_SCRIPT_DELAY) :
    scriptWrites (e :: r) = scriptWrites r ∧ scriptDelays (e :: r) = scriptDelays r + 1 := by
  simp [scriptWrites, scriptDelays, scriptBody, List.takeWhile, h, delay_ne_end]

theorem scriptWrites_write (e : scr_type) (r : List scr_type)
    (h1 : e.reg ≠ ACTUATOR_SCRIPT_END) (h2 : e.reg ≠ ACTUATOR_SCRIPT_DELAY) :
    scriptWrites (e :: r) = (e.reg % 256, e.val % 256) :: scriptWrites r ∧
    scriptDelays (e :: r) = scriptDelays r := by
  simp [scriptWrites, scriptDelays, scriptBody, List.takeWhile, h1, h2]

theorem script_tail_wf (e : scr_type) (r : List scr_type)
    (hwf : ∃ x ∈ e :: r, x.reg = ACTUATOR_SCRIPT_END) (h : e.reg ≠ ACTUATOR_SCRIPT_END) :
    ∃ x ∈ r, x.reg = ACTUATOR_SCRIPT_END := by
  obtain ⟨x, hx, hxe⟩ := hwf
  rcases List.mem_cons.mp hx with rfl | hx
  · exact absurd hxe h
  · exact ⟨x, hx, hxe⟩

theorem writeRegScript_all_acked (s : List scr_type) :
    ∀ b : Bus, (∃ e ∈ s, e.reg = ACTUATOR_SCRIPT_END) → b.acksNext (scriptWrites s).length →
      ∃ b1 : Bus, Haptic_DRV2605.writeRegScript b s = some (SUCCESS, b1) ∧
        writesOf b1.trace = writesOf b.trace ++ (scriptWrites s).map (fun w => (w.1, w.2, true)) ∧
        pausesOf b1.trace = pausesOf b.trace + scriptDelays s ∧
        b1.regs = applyWrites b.regs (scriptWrites s) := by
  induction s with
  | nil => intro b hwf; simp at hwf
  | cons e r ih =>
    intro b hwf hack
    by_cases hE : e.reg = ACTUATOR_SCRIPT_END
    · obtain ⟨hw, hd⟩ := scriptWrites_end e r hE
      refine ⟨b, by simp [Haptic_DRV2605.writeRegScript, hE], ?_, ?_, ?_⟩
      · simp [hw]
      · simp [hd]
      · simp [hw, applyWrites]
    · have hwf1 := script_tail_wf e r hwf hE
      by_cases hD : e.reg = ACTUATOR_SCRIPT_DELAY
      · obtain ⟨hw, hd⟩ := scriptWrites_delay e r hD
        rw [hw] at hack
        obtain ⟨b1, hrun, htr, hp, hregs⟩ := ih b.delay hwf1 hack
        refine ⟨b1, by simp [Haptic_DRV2605.writeRegScript, hD, delay_ne_end, hrun], ?_, ?_, ?_⟩
        · rw [htr, hw]; simp [Bus.delay, writesOf, Event.asWrite]
        · rw [hp, hd]; simp [Bus.delay, pausesOf]; omega
        · rw [hregs, hw]; rfl
      · obtain ⟨hw, hd⟩ := scriptWrites_write e r hE hD
        rw [hw] at hack
        have hack0 : b.ack = true := by
          unfold Bus.acksNext at hack
          unfold Bus.ack
          rcases hb : b.acks with _ | ⟨a1, t⟩ <;> simp_all
        have hstep := writeReg_ok b e.reg e.val hack0
        have hack1 : Bus.acksNext
            { regs := Function.update b.regs (e.reg % 256) (e.val % 256), acks := b.acks.tail,
              trace := b.trace ++ [Event.write (e.reg % 256) (e.val % 256) true] }
            (scriptWrites r).length := by
          unfold Bus.acksNext at hack ⊢
          rcases hb : b.acks with _ | ⟨a1, t⟩ <;> simp_all
        obtain ⟨b1, hrun, htr, hp, hregs⟩ := ih _ hwf1 hack1
        refine ⟨b1, ?_, ?_, ?_, ?_⟩
        · simp [Haptic_DRV2605.writeRegScript, hE, hD, hstep, SUCCESS_ne_FAIL, hrun]
        · rw [htr, hw]; simp [writesOf, Event.asWrite]
        · rw [hp, hd]; simp [pausesOf]
        · rw [hregs, hw]; simp [applyWrites]

theorem writeRegScript_nack_at (s : List scr_type) :
    ∀ (b : Bus) (k : Nat) (rest : List Bool), (∃ e ∈ s, e.reg = ACTUATOR_SCRIPT_END) →
      k < (scriptWrites s).length → b.acks = List.replicate k true ++ false :: rest →
      ∃ (b1 : Bus) (w : Nat × Nat), (scriptWrites s)[k]? = some w ∧
        Haptic_DRV2605.writeRegScript b s = some (FAIL, b1) ∧
        writesOf b1.trace = writesOf b.trace ++
          ((scriptWrites s).take k).map (fun w => (w.1, w.2, true)) ++ [(w.1, w.2, false)] ∧
        b1.regs = applyWrites b.regs ((scriptWrites s).take k) ∧
        b1.acks = rest := by
  induction s with
  | nil => intro b k rest hwf; simp at hwf
  | cons e r ih =>
    intro b k rest hwf hk hacks
    by_cases hE : e.reg = ACTUATOR_SCRIPT_END
    · rw [(scriptWrites_end e r hE).1] at hk
      simp at hk
    · have hwf1 := script_tail_wf e r hwf hE
      by_cases hD : e.reg = ACTUATOR_SCRIPT_DELAY
      · obtain ⟨hw, -⟩ := scriptWrites_delay e r hD
        rw [hw] at hk ⊢
        obtain ⟨b1, w, hget, hrun, htr, hregs, hrest⟩ := ih b.delay k rest hwf1 hk hacks
        refine ⟨b1, w, hget, by simp [Haptic_DRV2605.writeRegScript, hD, delay_ne_end, hrun],
          ?_, hregs, hrest⟩
        rw [htr]; simp [Bus.delay, writesOf, Event.asWrite]
      · obtain ⟨hw, -⟩ := scriptWrites_write e r hE hD
        rw [hw] at hk ⊢
        cases k with
        | zero =>
          have hack0 : b.ack = false := by simp [Bus.ack, hacks]
          have hstep := writeReg_nack b e.reg e.val hack0
          refine ⟨{ regs := b.regs, acks := b.acks.tail,
                    trace := b.trace ++ [Event.write (e.reg % 256) (e.val % 256) false] },
            (e.reg % 256, e.val % 256), by simp, ?_, ?_, ?_, ?_⟩
          · simp [Haptic_DRV2605.writeRegScript, hE, hD, hstep]
          · simp [writesOf, Event.asWrite]
          · simp [applyWrites]
          · simp [hacks]
        | succ k =>
          have hack0 : b.ack = true := by simp [Bus.ack, hacks, List.replicate_succ]
          have hstep := writeReg_ok b e.reg e.val hack0
          have hk1 : k < (scriptWrites r).length := by simpa using hk
          obtain ⟨b1, w, hget, hrun, htr, hregs, hrest⟩ :=
            ih { regs := Function.update b.regs (e.reg % 256) (e.val % 256), acks := b.acks.tail,
                 trace := b.trace ++ [Event.write (e.reg % 256) (e.val % 256) true] }
              k rest hwf1 hk1 (by simp [hacks, List.replicate_succ])
          refine ⟨b1, w, by simpa using hget, ?_, ?_, ?_, hrest⟩
          · simp [Haptic_DRV2605.writeRegScript, hE, hD, hstep, SUCCESS_ne_FAIL, hrun]
          · rw [htr]; simp [writesOf, Event.asWrite]
          · rw [hregs]; simp [applyWrites]

theorem writeRegScript_total (s : List scr_type) :
    ∀ b : Bus, (∃ e ∈ s, e.reg = ACTUATOR_SCRIPT_END) →
      ∃ r : Int × Bus, Haptic_DRV2605.writeRegScript b s = some r := by
  induction s with
  | nil => intro b hwf; simp at hwf
  | cons e r ih =>
    intro b hwf
    by_cases hE : e.reg = ACTUATOR_SCRIPT_END
    · exact ⟨(SUCCESS, b), by simp [Haptic_DRV2605.writeRegScript, hE]⟩
    · have hwf1 := script_tail_wf e r hwf hE
      by_cases hD : e.reg = ACTUATOR_SCRIPT_DELAY
      · obtain ⟨x, hx⟩ := ih b.delay hwf1
        exact ⟨x, by simp [Haptic_DRV2605.writeRegScript, hD, delay_ne_end, hx]⟩
      · by_cases hF : (Haptic_DRV2605.writeReg b e.reg e.val).1 = FAIL
        · exact ⟨(FAIL, (Haptic_DRV2605.writeReg b e.reg e.val).2),
            by simp [Haptic_DRV2605.writeRegScript, hE, hD, hF]⟩
        · obtain ⟨x, hx⟩ := ih (Haptic_DRV2605.writeReg b e.reg e.val).2 hwf1
          exact ⟨x, by simp [Haptic_DRV2605.writeRegScript, hE, hD, hF, hx]⟩

/-- Remark on the width of the mode field: were the field only three bits wide
(mask `0x07`), writing `SLEEP_MODE = 8` would still succeed but the field
would read back as `0`. -/
theorem setMode_three_bit_field_truncates :
    (Haptic_DRV2605.setMode 0x01 0x07 (Bus.seeded 0 []) 8).1 = SUCCESS ∧
    (Haptic_DRV2605.getMode 0x01 0x07
      (Haptic_DRV2605.setMode 0x01 0x07 (Bus.seeded 0 []) 8).2).1 = 0 := by
  decide

/-! ## The claims -/

/-- C1: `writeRegBits` is a read-modify-write.  For every register address
and all bytes `old` (the register's current content), `mask` and `bits`, when
both bus transactions complete the call succeeds, the bus sees one read and
then one write of the register, and the byte written back is
`(old AND NOT mask) OR (bits AND mask)`, where `0xFF XOR mask` is the 8-bit
complement of `mask`: every bit outside `mask` keeps its value from `old` and
every bit inside `mask` is the corresponding bit of `bits`. -/
theorem writeRegBits_read_modify_write (b : Bus) (reg old mask bits : Nat)
    (hreg : reg < 256) (hmask : mask < 256) (hbits : bits < 256)
    (hold : old < 256) (hcur : b.regs reg = old) (hack : b.acksNext 2) :
    ∃ new : Nat,
      new = (old &&& (0xFF ^^^ mask)) ||| (bits &&& mask) ∧
      new < 256 ∧
      (∀ i, i < 8 → (0xFF ^^^ mask).testBit i = !mask.testBit i) ∧
      (∀ i, i < 8 → new.testBit i = if mask.testBit i then bits.testBit i else old.testBit i) ∧
      (Haptic_DRV2605.writeRegBits b reg mask bits).1 = SUCCESS ∧
      (Haptic_DRV2605.writeRegBits b reg mask bits).2.trace =
        b.trace ++ [Event.read reg true, Event.write reg new true] ∧
      (Haptic_DRV2605.writeRegBits b reg mask bits).2.regs = Function.update b.regs reg new := by
  refine ⟨Haptic_DRV2605.maskedByte old mask bits, maskedByte_eq old mask bits hmask hbits,
    maskedByte_lt _ _ _, ?_, fun i hi => maskedByte_testBit old mask bits i hi, ?_⟩
  · intro i hi
    have h255 : (0xFF : Nat).testBit i = true := by
      interval_cases i <;> decide
    simp [Nat.testBit_xor, h255]
  · rw [writeRegBits_ok b reg mask bits hack]
    simp [Nat.mod_eq_of_lt hreg, hcur, Nat.mod_eq_of_lt hold]

/-- Witness for C1: register `0x01` seeded with `0xA5`, mask `0x0F`, bits
`0x3C`. -/
theorem writeRegBits_read_modify_write_witness :
    (Bus.seeded 0xA5 []).regs 0x01 = 0xA5 ∧ (Bus.seeded 0xA5 []).acksNext 2 ∧
    ∃ new : Nat,
      new = (0xA5 &&& (0xFF ^^^ 0x0F)) ||| (0x3C &&& 0x0F) ∧
      new < 256 ∧
      (∀ i, i < 8 → (0xFF ^^^ 0x0F).testBit i = !(0x0F : Nat).testBit i) ∧
      (∀ i, i < 8 → new.testBit i =
        if (0x0F : Nat).testBit i then (0x3C : Nat).testBit i else (0xA5 : Nat).testBit i) ∧
      (Haptic_DRV2605.writeRegBits (Bus.seeded 0xA5 []) 0x01 0x0F 0x3C).1 = SUCCESS ∧
      (Haptic_DRV2605.writeRegBits (Bus.seeded 0xA5 []) 0x01 0x0F 0x3C).2.trace =
        (Bus.seeded 0xA5 []).trace ++ [Event.read 0x01 true, Event.write 0x01 new true] ∧
      (Haptic_DRV2605.writeRegBits (Bus.seeded 0xA5 []) 0x01 0x0F 0x3C).2.regs =
        Function.update (Bus.seeded 0xA5 []).regs 0x01 new :=
  ⟨rfl, by decide,
    writeRegBits_read_modify_write (Bus.seeded 0xA5 []) 0x01 0xA5 0x0F 0x3C
      (by decide) (by decide) (by decide) (by decide) rfl (by decide)⟩

/-- C2: the operating modes are exactly the nine enumerators before
`HAPTIC_MODE_MAX`, with the values 0..8 in source order, pairwise distinct,
`HAPTIC_MODE_MAX` is 9, and an integer is the value of an operating mode if
and only if it lies in `0 ≤ v < HAPTIC_MODE_MAX`. -/
theorem op_mode_closed_enumeration :
    op_mode.modes.map op_mode.val = [0, 1, 2, 3, 4, 5, 6, 7, 8] ∧
    op_mode.modes.length = 9 ∧
    op_mode.modes.Nodup ∧
    (op_mode.modes.map op_mode.val).Nodup ∧
    (∀ m : op_mode, m ∈ op_mode.modes ↔ m ≠ op_mode.HAPTIC_MODE_MAX) ∧
    op_mode.HAPTIC_MODE_MAX.val = 9 ∧
    (∀ v : Int, (∃ m ∈ op_mode.modes, (m.val : Int) = v) ↔
      (0 ≤ v ∧ v < (op_mode.HAPTIC_MODE_MAX.val : Int))) := by
  refine ⟨by decide, by decide, by decide, by decide, by decide, by decide, ?_⟩
  intro v
  constructor
  · rintro ⟨m, hm, rfl⟩
    cases m <;> simp [op_mode.val, op_mode.modes] at hm ⊢
  · rintro ⟨h0, h9⟩
    have h9' : v < 9 := by simpa [op_mode.val] using h9
    lift v to Nat using h0
    have hv : v < 9 := by exact_mod_cast h9'
    interval_cases v
    · exact ⟨.INACTIVE_MODE, by decide, rfl⟩
    · exact ⟨.STREAM_MODE, by decide, rfl⟩
    · exact ⟨.PWM_MODE, by decide, rfl⟩
    · exact ⟨.REGISTER_MODE, by decide, rfl⟩
    · exact ⟨.GPIO_MODE, by decide, rfl⟩
    · exact ⟨.AUDIO_MODE, by decide, rfl⟩
    · exact ⟨.DIAG_MODE, by decide, rfl⟩
    · exact ⟨.CALIBRATE_MODE, by decide, rfl⟩
    · exact ⟨.SLEEP_MODE, by decide, rfl⟩

/-- C4, as stated, fails: `LRA_DMA` is a value of `haptic_dev_t` below
`HAPTIC_DEV_MAX` and is none of `LRA`, `ERM`, `ERM_COIN`, `ERM_DMA`. -/
theorem haptic_dev_four_types_refuted :
    ¬ (∀ t : haptic_dev_t, t.val < haptic_dev_t.HAPTIC_DEV_MAX.val →
        t ∈ [haptic_dev_t.LRA, haptic_dev_t.ERM, haptic_dev_t.ERM_COIN, haptic_dev_t.ERM_DMA]) := by
  intro h
  exact absurd (h haptic_dev_t.LRA_DMA (by decide)) (by decide)

/-- C4, amended: the values of `haptic_dev_t` below `HAPTIC_DEV_MAX` (= 5) are
exactly the five enumerators `LRA`, `ERM`, `ERM_COIN`, `ERM_DMA` and
`LRA_DMA`, with the values 0..4; every such type other than `LRA` and
`LRA_DMA` is an ERM variant. -/
theorem haptic_dev_valid_types :
    haptic_dev_t.HAPTIC_DEV_MAX.val = 5 ∧
    haptic_dev_t.types.map haptic_dev_t.val = [0, 1, 2, 3, 4] ∧
    (∀ t : haptic_dev_t, t.val < haptic_dev_t.HAPTIC_DEV_MAX.val ↔
      t ∈ [haptic_dev_t.LRA, haptic_dev_t.ERM, haptic_dev_t.ERM_COIN, haptic_dev_t.ERM_DMA,
           haptic_dev_t.LRA_DMA]) ∧
    (∀ t : haptic_dev_t, (t.val < haptic_dev_t.HAPTIC_DEV_MAX.val ∧
        t ≠ haptic_dev_t.LRA ∧ t ≠ haptic_dev_t.LRA_DMA) ↔ t.isERM = true) := by
  refine ⟨by decide, by decide, by decide, by decide⟩

/-- C5: on every well-formed script (one that contains the end sentinel)
`writeRegScript` returns a result.  When every write is acknowledged it
returns `SUCCESS` having issued exactly the register writes listed before the
end sentinel, in script order, each delay sentinel giving one pause and no
write.  When the write at position `k` is the first not acknowledged it
returns `FAIL` having issued exactly the writes up to and including that one:
the earlier writes stay applied to the registers and no later entry is
applied. -/
theorem writeRegScript_contract (s : List scr_type) (b : Bus)
    (hwf : ∃ e ∈ s, e.reg = ACTUATOR_SCRIPT_END) :
    (∃ r : Int × Bus, Haptic_DRV2605.writeRegScript b s = some r) ∧
    (b.acksNext (scriptWrites s).length →
      ∃ b1 : Bus, Haptic_DRV2605.writeRegScript b s = some (SUCCESS, b1) ∧
        writesOf b1.trace = writesOf b.trace ++ (scriptWrites s).map (fun w => (w.1, w.2, true)) ∧
        pausesOf b1.trace = pausesOf b.trace + scriptDelays s ∧
        b1.regs = applyWrites b.regs (scriptWrites s)) ∧
    (∀ (k : Nat) (rest : List Bool), k < (scriptWrites s).length →
      b.acks = List.replicate k true ++ false :: rest →
      ∃ (b1 : Bus) (w : Nat × Nat), (scriptWrites s)[k]? = some w ∧
        Haptic_DRV2605.writeRegScript b s = some (FAIL, b1) ∧
        writesOf b1.trace = writesOf b.trace ++
          ((scriptWrites s).take k).map (fun w => (w.1, w.2, true)) ++ [(w.1, w.2, false)] ∧
        b1.regs = applyWrites b.regs ((scriptWrites s).take k)) := by
  refine ⟨writeRegScript_total s b hwf, writeRegScript_all_acked s b hwf, ?_⟩
  intro k rest hk hacks
  obtain ⟨b1, w, hget, hrun, htr, hregs, -⟩ := writeRegScript_nack_at s b k rest hwf hk hacks
  exact ⟨b1, w, hget, hrun, htr, hregs⟩

/-- Witness for C5: the sample script on a bus that acknowledges everything,
and on a bus that refuses the second write. -/
theorem writeRegScript_contract_witness :
    (∃ e ∈ sampleScript, e.reg = ACTUATOR_SCRIPT_END) ∧
    (∃ b1 : Bus,
      Haptic_DRV2605.writeRegScript (Bus.seeded 0 []) sampleScript = some (SUCCESS, b1) ∧
      writesOf b1.trace = writesOf (Bus.seeded 0 []).trace ++
        (scriptWrites sampleScript).map (fun w => (w.1, w.2, true)) ∧
      pausesOf b1.trace = pausesOf (Bus.seeded 0 []).trace + scriptDelays sampleScript ∧
      b1.regs = applyWrites (Bus.seeded 0 []).regs (scriptWrites sampleScript)) ∧
    (∃ (b1 : Bus) (w : Nat × Nat), (scriptWrites sampleScript)[1]? = some w ∧
      Haptic_DRV2605.writeRegScript (Bus.seeded 0 [true, false]) sampleScript =
        some (FAIL, b1) ∧
      writesOf b1.trace = writesOf (Bus.seeded 0 [true, false]).trace ++
        ((scriptWrites sampleScript).take 1).map (fun w => (w.1, w.2, true)) ++
          [(w.1, w.2, false)] ∧
      b1.regs = applyWrites (Bus.seeded 0 [true, false]).regs
        ((scriptWrites sampleScript).take 1)) :=
  ⟨by decide,
    (writeRegScript_contract sampleScript (Bus.seeded 0 []) (by decide)).2.1 (by decide),
    (writeRegScript_contract sampleScript (Bus.seeded 0 [true, false]) (by decide)).2.2 1 []
      (by decide) rfl⟩

/-- C6: for every slot index below the configured slot count and every effect
index, `setWaveform` succeeds when the bus acknowledges and a following read
of that slot returns the effect index written; for every slot index at or
beyond the count, `setWaveform` returns `FAIL` and leaves the bus untouched:
no transaction is issued. -/
theorem setWaveform_contract (seqBase slotCount : Nat) (b : Bus) (slot wave : Nat)
    (hslot : slot < 256) (hwave : wave < 256) :
    (slot < slotCount → b.acksNext 2 →
      (Haptic_DRV2605.setWaveform seqBase slotCount b slot wave).1 = SUCCESS ∧
      (Haptic_DRV2605.getWaveform seqBase
        (Haptic_DRV2605.setWaveform seqBase slotCount b slot wave).2 slot).1 = (wave : Int)) ∧
    (slotCount ≤ slot →
      Haptic_DRV2605.setWaveform seqBase slotCount b slot wave = (FAIL, b)) := by
  constructor
  · intro hlt hack
    obtain ⟨h1, h2⟩ := acksNext_two b hack
    have hnot : ¬ slotCount ≤ slot % 256 := by rw [Nat.mod_eq_of_lt hslot]; omega
    unfold Haptic_DRV2605.setWaveform Haptic_DRV2605.getWaveform
    rw [if_neg hnot, writeReg_ok b _ _ h1]
    refine ⟨rfl, ?_⟩
    rw [readReg_ok _ _ (by simpa [Bus.ack] using h2)]
    simp [Nat.mod_eq_of_lt hwave]
  · intro hge
    unfold Haptic_DRV2605.setWaveform
    rw [if_pos (by rw [Nat.mod_eq_of_lt hslot]; exact hge)]

/-- Witness for C6: slot `3` of eight slots based at `0x04` takes effect
`0x2F`, and slot `8` is refused. -/
theorem setWaveform_contract_witness :
    ((Haptic_DRV2605.setWaveform 0x04 8 (Bus.seeded 0 []) 3 0x2F).1 = SUCCESS ∧
      (Haptic_DRV2605.getWaveform 0x04
        (Haptic_DRV2605.setWaveform 0x04 8 (Bus.seeded 0 []) 3 0x2F).2 3).1 =
          ((0x2F : Nat) : Int)) ∧
    Haptic_DRV2605.setWaveform 0x04 8 (Bus.seeded 0 []) 8 0x2F = (FAIL, Bus.seeded 0 []) :=
  ⟨(setWaveform_contract 0x04 8 (Bus.seeded 0 []) 3 0x2F (by decide) (by decide)).1
      (by decide) (by decide),
    (setWaveform_contract 0x04 8 (Bus.seeded 0 []) 8 0x2F (by decide) (by decide)).2
      (by decide)⟩

/-- C7: `SUCCESS` is 0 and `FAIL` is -1, they differ, and `FAIL` is no byte
value `0..255`; so for every result of `readReg` exactly one of "it is `FAIL`"
and "it is a byte, `0 ≤ r ≤ 255`" holds: it is the byte read when the
transaction completes and `FAIL` when it does not. -/
theorem readReg_outcome :
    SUCCESS = 0 ∧ FAIL = -1 ∧ SUCCESS ≠ FAIL ∧
    (∀ v : Int, ¬ (v = FAIL ∧ 0 ≤ v ∧ v ≤ 255)) ∧
    (∀ (b : Bus) (reg : Nat),
      Xor' ((Haptic_DRV2605.readReg b reg).1 = FAIL)
        (0 ≤ (Haptic_DRV2605.readReg b reg).1 ∧ (Haptic_DRV2605.readReg b reg).1 ≤ 255)) ∧
    (∀ (b : Bus) (reg : Nat),
      (Haptic_DRV2605.readReg b reg).1 =
        if b.ack = true then ((b.regs (reg % 256) % 256 : Nat) : Int) else FAIL) := by
  refine ⟨rfl, rfl, by decide, ?_, ?_, ?_⟩
  · rintro v ⟨h1, h2, -⟩
    rw [h1] at h2
    exact absurd h2 (by decide)
  · intro b reg
    cases h : b.ack
    · rw [readReg_nack b reg h]
      left
      exact ⟨rfl, by simp [FAIL]⟩
    · rw [readReg_ok b reg h]
      right
      refine ⟨⟨by omega, ?_⟩, natCast_ne_FAIL _⟩
      have : b.regs (reg % 256) % 256 < 256 := Nat.mod_lt _ (by norm_num)
      show ((b.regs (reg % 256) % 256 : Nat) : Int) ≤ 255
      omega
  · intro b reg
    cases h : b.ack
    · rw [readReg_nack b reg h]; simp
    · rw [readReg_ok b reg h]; simp

/-- C8: the delay and end sentinels differ and both fit a `uint8_t`; no
register address `reg` of the chip (`0..0x23`) equals either of them, so a
script entry that addresses such a register is handled by `writeRegScript` as
a register write, never as a sentinel. -/
theorem script_sentinels_unambiguous (reg : Nat) (hreg : reg ≤ REG_ADDR_MAX) :
    ACTUATOR_SCRIPT_DELAY = 0xFE ∧ ACTUATOR_SCRIPT_END = 0xFF ∧
    ACTUATOR_SCRIPT_DELAY ≠ ACTUATOR_SCRIPT_END ∧
    ACTUATOR_SCRIPT_DELAY < 256 ∧ ACTUATOR_SCRIPT_END < 256 ∧
    reg ≠ ACTUATOR_SCRIPT_DELAY ∧ reg ≠ ACTUATOR_SCRIPT_END ∧
    (∀ (b : Bus) (val : Nat) (rest : List scr_type),
      Haptic_DRV2605.writeRegScript b (⟨reg, val⟩ :: rest) =
        if (Haptic_DRV2605.writeReg b reg val).1 = FAIL
        then some (FAIL, (Haptic_DRV2605.writeReg b reg val).2)
        else Haptic_DRV2605.writeRegScript (Haptic_DRV2605.writeReg b reg val).2 rest) := by
  have h1 : reg ≠ ACTUATOR_SCRIPT_DELAY := by
    simp only [REG_ADDR_MAX, ACTUATOR_SCRIPT_DELAY] at hreg ⊢
    omega
  have h2 : reg ≠ ACTUATOR_SCRIPT_END := by
    simp only [REG_ADDR_MAX, ACTUATOR_SCRIPT_END] at hreg ⊢
    omega
  refine ⟨rfl, rfl, by decide, by decide, by decide, h1, h2, ?_⟩
  intro b val rest
  simp [Haptic_DRV2605.writeRegScript, h1, h2]

/-- Witness for C8: the last register of the address space, `0x23`. -/
theorem script_sentinels_unambiguous_witness :
    (0x23 : Nat) ≤ REG_ADDR_MAX ∧
    (0x23 : Nat) ≠ ACTUATOR_SCRIPT_DELAY ∧ (0x23 : Nat) ≠ ACTUATOR_SCRIPT_END :=
  ⟨by decide, (script_sentinels_unambiguous 0x23 (by decide)).2.2.2.2.2.1,
    (script_sentinels_unambiguous 0x23 (by decide)).2.2.2.2.2.2.1⟩

/-- C9: the default-initialised `haptic_driver` has `op_mode` equal to
`REGISTER_MODE`, below `HAPTIC_MODE_MAX`; `dev_type` equal to `ERM`, below
`HAPTIC_DEV_MAX`; `dev_effect ≤ dev_effects_max` and
`dev_script ≤ dev_scripts_max`. -/
theorem default_state_invariants :
    haptic_driver.default.op_mode = op_mode.REGISTER_MODE.val ∧
    haptic_driver.default.op_mode < op_mode.HAPTIC_MODE_MAX.val ∧
    haptic_driver.default.dev_type = haptic_dev_t.ERM.val ∧
    haptic_driver.default.dev_type < haptic_dev_t.HAPTIC_DEV_MAX.val ∧
    haptic_driver.default.dev_effect ≤ haptic_driver.default.dev_effects_max ∧
    haptic_driver.default.dev_script ≤ haptic_driver.default.dev_scripts_max := by
  refine ⟨by decide, by decide, by decide, by decide, by decide, by decide⟩

/-- C10: the configured sequence defaults lie within their documented limits:
`ACTUATOR_SEQ_ID` and `ACTUATOR_GPI_0_SEQ_ID` are in `0..ACTUATOR_SEQ_ID_MAX`
(= 15) and `ACTUATOR_SEQ_LOOP` is in `0..ACTUATOR_SEQ_LOOP_MAX` (= 15). -/
theorem sequence_defaults_within_limits :
    ACTUATOR_SEQ_ID_MAX = 15 ∧ ACTUATOR_SEQ_LOOP_MAX = 15 ∧
    (0 ≤ ACTUATOR_SEQ_ID ∧ ACTUATOR_SEQ_ID ≤ ACTUATOR_SEQ_ID_MAX) ∧
    (0 ≤ ACTUATOR_GPI_0_SEQ_ID ∧ ACTUATOR_GPI_0_SEQ_ID ≤ ACTUATOR_SEQ_ID_MAX) ∧
    (0 ≤ ACTUATOR_SEQ_LOOP ∧ ACTUATOR_SEQ_LOOP ≤ ACTUATOR_SEQ_LOOP_MAX) := by
  refine ⟨by decide, by decide, by decide, by decide, by decide⟩
